import Mathlib

set_option autoImplicit false

/-!
Shallow embedding of the drift-monitoring service in
`scripts/session_9/main.py`: the production buffer, the serving endpoint
`predict`, the background drift-report job, and the manual endpoints
`/monitor/generate_report` and `/monitor/trigger_now`.

Python dictionaries are embedded as insertion-ordered association lists
with integer values; filesystem writes and the external model call are
represented by explicit result environments (an operation either succeeds
or raises, as injected by the environment), so exceptional control flow of
the source is explicit `Except` flow here.
-/

/-- A Python dict of feature-name to numeric value, in insertion order
(a `FeatureRecord` of the spec). -/
def Rec : Type := List (String × Int)

instance : DecidableEq Rec := by unfold Rec; infer_instance

/-- Python dict lookup `r[k]`, `None` when the key is absent. -/
def dictGet? (r : Rec) (k : String) : Option Int :=
  (r.find? (fun p => p.1 = k)).map Prod.snd

/-- Python dict assignment `r[k] = v`: updates the value in place when the
key is present (keeping its position), otherwise appends the new key at the
end, as Python dicts do. -/
def dictSet : Rec → String → Int → Rec
  | [], k, v => [(k, v)]
  | (k', v') :: rest, k, v =>
      if k' = k then (k, v) :: rest else (k', v') :: dictSet rest k v

/-- The hard-coded feature list of `main.py` (lines 68-73 and 207-212). -/
def features_list : List String :=
  ["sepal length (cm)", "sepal width (cm)",
   "petal length (cm)", "petal width (cm)"]

/-- The iris class names, loaded at startup from `load_iris`
(`target_names`, line 30). -/
def target_names : List String := ["setosa", "versicolor", "virginica"]

/-- Column names of `pd.DataFrame(production_data)`: the union of the keys
of all records, in first-appearance order. -/
def columnsOf (pd : List Rec) : List String :=
  pd.foldl (fun acc r => acc ++ ((r.map Prod.fst).filter (fun k => k ∉ acc))) []

/-- Column selection `df_current[features_list]` (line 80 / 219): raises a
`KeyError` when one of the four features is not a column of the frame,
otherwise yields the rows restricted to the four features, in the order of
`features_list` (a per-row value is `none` when that record lacks the key,
pandas `NaN`). -/
def selectFeatures (pd : List Rec) : Except String (List (List (Option Int))) :=
  if features_list.all (fun f => f ∈ columnsOf pd) then
    .ok (pd.map (fun r => features_list.map (fun f => dictGet? r f)))
  else
    .error "KeyError"

/-- The drift report produced by one analysis run: the features compared,
a per-feature drift flag and the overall verdict. -/
structure DriftReport where
  featureNames : List String
  driftFlags : List Bool
  overallDrift : Bool
deriving DecidableEq

/-- Values of feature `f` in the reference frame. -/
def colRef (base : List Rec) (f : String) : List Int :=
  base.filterMap (fun r => dictGet? r f)

/-- Values of column `i` of the selected current window. -/
def colCur (w : List (List (Option Int))) (i : Nat) : List Int :=
  w.filterMap (fun row => (row.get? i).join)

/-- Per-feature drift test: the two samples drift when their means differ
by more than one tenth (stated by cross-multiplication over `Int`, so no
division is needed). -/
def meanShifted (xs ys : List Int) : Bool :=
  10 * (ys.sum * (xs.length : Int) - xs.sum * (ys.length : Int)).natAbs
    > xs.length * ys.length

/-- Modelled from the spec: the Drift Analyzer (`Report([DataDriftPreset()])
.run(...)`, lines 77-81) is the external Evidently library, not part of this
repository; per §4.2 it is a pure, deterministic function of
`(baseline, window)` computing a per-feature drift score/flag and an overall
verdict. Embedded as a deterministic per-feature mean comparison. -/
def analyze (base : List Rec) (window : List (List (Option Int))) : DriftReport :=
  let flags := (List.range features_list.length).map
    (fun i => meanShifted (colRef base (features_list.getD i "")) (colCur window i))
  { featureNames := features_list
    driftFlags := flags
    overallDrift := flags.any id }

/-- The mutable state of the service process: the in-memory
`production_data` list, the report files written so far (path and content),
and the content of `drift_report_latest.html` when it exists. -/
structure ServerState where
  production_data : List Rec
  savedReports : List (String × DriftReport)
  latestReport : Option DriftReport
deriving DecidableEq

/-- Outcome environment for one analysis run: the timestamp string used in
the report filename, and whether the external steps (the Evidently run,
`save_html` of the timestamped file, `save_html` of the latest file) raise,
with the exception message when they do. -/
structure RunEnv where
  timestamp : String
  analyzeFails : Option String
  saveTimestampedFails : Option String
  saveLatestFails : Option String
deriving DecidableEq

/-- The body of the `try:` block shared by `generate_drift_report_background`
(lines 62-105) and `generate_report` (lines 201-241), parameterized by the
report-filename stem (`drift_report_` for the background job,
`drift_report_manual_` for the manual endpoint): build the current frame,
select the feature columns, run the analyzer, save the timestamped report
file, then save the latest report file. An exception at any step aborts the
rest of the block, keeping the state changes already made. -/
def analysisBody (stem : String) (base : List Rec) (env : RunEnv)
    (st : ServerState) : Except String DriftReport × ServerState :=
  match selectFeatures st.production_data with
  | .error e => (.error e, st)
  | .ok window =>
    match env.analyzeFails with
    | some e => (.error e, st)
    | none =>
      let rep := analyze base window
      match env.saveTimestampedFails with
      | some e => (.error e, st)
      | none =>
        let st1 : ServerState :=
          { st with savedReports :=
              st.savedReports ++ [(stem ++ env.timestamp ++ ".html", rep)] }
        match env.saveLatestFails with
        | some e => (.error e, st1)
        | none => (.ok rep, { st1 with latestReport := some rep })

/-- Result of one background drift-report run: skipped for insufficient
data, completed, or aborted by an exception that the `except` clause
caught. -/
inductive RunResult
  | insufficient
  | success
  | caughtError (msg : String)
deriving DecidableEq

/-- `generate_drift_report_background` (lines 47-107): skip when fewer than
10 production records are buffered, otherwise run the analysis body under
`try`, catching every exception locally (`except Exception`, line 106). -/
def generate_drift_report_background (base : List Rec) (env : RunEnv)
    (st : ServerState) : RunResult × ServerState :=
  if st.production_data.length < 10 then
    (.insufficient, st)
  else
    match analysisBody "drift_report_" base env st with
    | (.ok _, st') => (.success, st')
    | (.error e, st') => (.caughtError e, st')

/-- Response of `GET /monitor/generate_report`: the not-enough-data message
(lines 195-199), the success dict (lines 243-250), or the error dict
(line 253). -/
inductive ReportResponse
  | insufficientData (current_data_points : Nat)
  | success (data_points_analyzed : Nat)
  | error (msg : String)
deriving DecidableEq

/-- `generate_report` (lines 184-253), the manual `GET` endpoint: same gate
and body as the background job, with the `drift_report_manual_` filename
stem, returning a structured response. -/
def generate_report (base : List Rec) (env : RunEnv)
    (st : ServerState) : ReportResponse × ServerState :=
  if st.production_data.length < 10 then
    (.insufficientData st.production_data.length, st)
  else
    match analysisBody "drift_report_manual_" base env st with
    | (.ok _, st') => (.success st'.production_data.length, st')
    | (.error e, st') => (.error e, st')

/-- Response of `POST /monitor/trigger_now` (lines 322-326): a fixed message
with the current data-point count and the latest-report URL. -/
structure TriggerResponse where
  message : String
  data_points_analyzed : Nat
  latest_report_url : String
deriving DecidableEq

/-- `trigger_drift_detection_now` (lines 314-326): call
`generate_drift_report_background` unconditionally, then return the fixed
success dict whatever the run did. -/
def trigger_drift_detection_now (base : List Rec) (env : RunEnv)
    (st : ServerState) : TriggerResponse × ServerState :=
  let (_, st') := generate_drift_report_background base env st
  ({ message := "Drift detection triggered successfully"
     data_points_analyzed := st'.production_data.length
     latest_report_url := "http://localhost:8080/drift_report_latest.html" },
   st')

/-- The timer cadence: one background run per tick, each tick with its own
outcome environment, state threaded through. Returns the outcome of every
tick. -/
def runCycles (base : List Rec) (envs : List RunEnv)
    (st : ServerState) : List RunResult × ServerState :=
  match envs with
  | [] => ([], st)
  | env :: rest =>
    let (r, st') := generate_drift_report_background base env st
    let (rs, st'') := runCycles base rest st'
    (r :: rs, st'')

deriving instance DecidableEq for Except

/-- Outcome environment for one `predict` call: the result of
`model.predict(pd.DataFrame([features]))[0]` — a class index, or the
exception raised by the frame conversion or the model. -/
structure PredictEnv where
  modelResult : Except String Nat
deriving DecidableEq

/-- Response of `POST /predict`: the class dict (line 176) or the error
dict (line 179). -/
inductive PredictResponse
  | ok (cls : String) (class_id : Nat)
  | error (msg : String)
deriving DecidableEq

/-- The buffer append-and-evict step of `predict` (lines 167-171): append
the log entry, then `pop(0)` when the list exceeds 500 items. -/
def bufferStep (buf : List Rec) (r : Rec) : List Rec :=
  let pd := buf ++ [r]
  if pd.length > 500 then pd.drop 1 else pd

/-- `predict` (lines 148-179): on model success, look up the class name,
build the log entry as a copy of the input with the prediction added
(lines 164-165), append it to `production_data` with eviction, and return
the class; any exception in the `try:` block yields the error dict with the
state untouched. -/
def predict (env : PredictEnv) (st : ServerState)
    (features : Rec) : PredictResponse × ServerState :=
  match env.modelResult with
  | .error e => (.error e, st)
  | .ok idx =>
    match target_names.get? idx with
    | none => (.error "IndexError", st)
    | some cls =>
      let log_entry := dictSet features "prediction" (idx : Int)
      (.ok cls idx,
       { st with production_data := bufferStep st.production_data log_entry })

/-- The log-entry construction of `predict` (lines 164-167) under an
explicit heap of dicts, to state aliasing: `features.copy()` allocates a
fresh dict at the next address with the same contents, and the subsequent
`log_entry["prediction"] = int(prediction_idx)` mutates that fresh address.
Returns the heap after the two statements and the address of `log_entry`. -/
def buildLogEntry (heap : List Rec) (featAddr : Nat) (idx : Nat) :
    List Rec × Nat :=
  let heap1 := heap ++ [heap.getD featAddr []]
  let entryAddr := heap.length
  let heap2 := heap1.set entryAddr
    (dictSet (heap1.getD entryAddr []) "prediction" (idx : Int))
  (heap2, entryAddr)

/-- A well-formed input record carrying the four expected features. -/
def sampleRec : Rec :=
  [("sepal length (cm)", 5), ("sepal width (cm)", 3),
   ("petal length (cm)", 1), ("petal width (cm)", 0)]

/-- A buffer of ten identical well-formed records, enough to pass the
MIN_SAMPLES gate. -/
def sampleData : List Rec := List.replicate 10 sampleRec

/-- A server state holding ten buffered records, one saved report and a
latest report. -/
def sampleState : ServerState :=
  { production_data := sampleData
    savedReports := [("drift_report_20240101_000000.html", analyze [] [])]
    latestReport := some (analyze [] []) }

/-- The empty server state at process start. -/
def emptyState : ServerState :=
  { production_data := [], savedReports := [], latestReport := none }

/-- A run environment where every external step succeeds. -/
def envOk : RunEnv :=
  { timestamp := "20240102_000000", analyzeFails := none,
    saveTimestampedFails := none, saveLatestFails := none }

/-- A run environment where the analyzer raises. -/
def envAnalyzeBoom : RunEnv :=
  { timestamp := "20240102_000000", analyzeFails := some "boom",
    saveTimestampedFails := none, saveLatestFails := none }

set_option maxRecDepth 4000 in
/-- Folding the append-and-evict step of `predict` from any buffer of at
most 500 records keeps exactly the newest 500 of the concatenation. -/
theorem foldl_bufferStep_eq (recs : List Rec) :
    ∀ buf : List Rec, buf.length ≤ 500 →
      recs.foldl bufferStep buf =
        (buf ++ recs).drop (buf.length + recs.length - 500) := by
  induction recs with
  | nil =>
    intro buf h
    simp [Nat.sub_eq_zero_of_le h]
  | cons r rs ih =>
    intro buf h
    rw [List.foldl_cons]
    by_cases hlen : (buf ++ [r]).length > 500
    · have hl : buf.length = 500 := by
        rw [List.length_append, List.length_singleton] at hlen
        omega
      have hstep : bufferStep buf r = (buf ++ [r]).drop 1 := by
        simp only [bufferStep]
        rw [if_pos hlen]
      have hlen' : ((buf ++ [r]).drop 1).length ≤ 500 := by
        rw [List.length_drop, List.length_append, List.length_singleton]
        omega
      rw [hstep, ih _ hlen']
      have h1 : (1 : Nat) ≤ (buf ++ [r]).length := by
        rw [List.length_append, List.length_singleton]
        omega
      rw [← List.drop_append_of_le_length h1, List.drop_drop]
      rw [List.append_assoc, List.singleton_append]
      refine congrArg (fun n => List.drop n (buf ++ r :: rs)) ?_
      have e1 : (List.drop 1 (buf ++ [r])).length = 500 := by
        simp [hl]
      have e2 : (r :: rs).length = rs.length + 1 := rfl
      rw [e1, e2, hl]
      omega
    · have hstep : bufferStep buf r = buf ++ [r] := by
        simp only [bufferStep]
        rw [if_neg hlen]
      have hlen' : (buf ++ [r]).length ≤ 500 := by omega
      rw [hstep, ih _ hlen']
      rw [List.append_assoc, List.singleton_append]
      refine congrArg (fun n => List.drop n (buf ++ r :: rs)) ?_
      have e1 : (buf ++ [r]).length = buf.length + 1 := by simp
      have e2 : (r :: rs).length = rs.length + 1 := rfl
      rw [e1, e2]
      omega

/-- C2: starting from the empty `production_data` list at process start,
after any sequence of appends through the append-and-evict step of
`predict` the buffer holds at most 500 records, and it equals exactly the
newest 500 appended records in insertion order — `pop(0)` evicts the
oldest record first, strict FIFO. -/
theorem buffer_capacity_fifo (recs : List Rec) :
    (recs.foldl bufferStep []).length ≤ 500 ∧
      recs.foldl bufferStep [] = recs.drop (recs.length - 500) := by
  have h := foldl_bufferStep_eq recs [] (by simp)
  simp only [List.nil_append, List.length_nil, Nat.zero_add] at h
  refine ⟨?_, h⟩
  rw [h, List.length_drop]
  omega

/-- C5: when the model call of `predict` succeeds, the endpoint returns the
class response and appends exactly one record — the input feature map plus
the `prediction` key — to `production_data` through the eviction step,
before returning; the report files and the latest pointer are untouched,
and no part of `predict` reads any analysis or scheduler state (the
equation holds for every value of the rest of the state). -/
theorem predict_appends_on_success (env : PredictEnv) (st : ServerState)
    (features : Rec) (idx : Nat) (cls : String)
    (hm : env.modelResult = .ok idx)
    (hc : target_names[idx]? = some cls) :
    predict env st features =
      (.ok cls idx,
       { production_data :=
           bufferStep st.production_data
             (dictSet features "prediction" (idx : Int))
         savedReports := st.savedReports
         latestReport := st.latestReport }) := by
  simp [predict, hm, hc]

/-- Witness for C5 at a concrete request: class index 0 is "setosa" and
the record is appended to the empty buffer. -/
theorem predict_appends_on_success_witness :
    predict { modelResult := Except.ok 0 } emptyState sampleRec =
      (.ok "setosa" 0,
       { production_data :=
           bufferStep emptyState.production_data
             (dictSet sampleRec "prediction" ((0 : Nat) : Int))
         savedReports := emptyState.savedReports
         latestReport := emptyState.latestReport }) :=
  predict_appends_on_success _ emptyState sampleRec 0 "setosa" rfl rfl

/-- C9: a `predict` request whose `try:` block raises returns the
structured error dict and leaves the entire server state — production
buffer, report files, latest pointer — exactly as it was before the
request. -/
theorem predict_failure_frame (env : PredictEnv) (st : ServerState)
    (features : Rec) (e : String)
    (h : (predict env st features).1 = .error e) :
    (predict env st features).2 = st := by
  cases hm : env.modelResult with
  | error e' => simp [predict, hm]
  | ok idx =>
    cases hc : target_names[idx]? with
    | none => simp [predict, hm, hc]
    | some cls =>
      exfalso
      simp [predict, hm, hc] at h

/-- Witness for C9: a failing model call on a ten-record state leaves the
state untouched. -/
theorem predict_failure_frame_witness :
    (predict { modelResult := Except.error "boom" } sampleState sampleRec).2
      = sampleState :=
  predict_failure_frame _ sampleState sampleRec "boom" rfl

/-- C10: `predict` never mutates the caller's input dict: in the heap
model of lines 164-167, `features.copy()` allocates the log entry at a
fresh address, the `prediction` assignment mutates only that fresh
address, the caller's dict is unchanged afterwards, and the stored entry
is the input contents plus the prediction key. -/
theorem predict_no_input_mutation (heap : List Rec) (a : Nat) (idx : Nat)
    (ha : a < heap.length) :
    (buildLogEntry heap a idx).1[a]? = heap[a]? ∧
    (buildLogEntry heap a idx).2 ≠ a ∧
    (buildLogEntry heap a idx).1[(buildLogEntry heap a idx).2]? =
      some (dictSet (heap.getD a []) "prediction" (idx : Int)) := by
  have hne : heap.length ≠ a := Nat.ne_of_gt ha
  refine ⟨?_, hne, ?_⟩
  · show ((heap ++ [heap.getD a []]).set heap.length _)[a]? = heap[a]?
    rw [List.getElem?_set_ne (fun hc => hne hc)]
    rw [List.getElem?_append, if_pos ha]
  · show ((heap ++ [heap.getD a []]).set heap.length
        (dictSet ((heap ++ [heap.getD a []]).getD heap.length []) "prediction"
          (idx : Int)))[heap.length]? = _
    have hcopy : (heap ++ [heap.getD a []]).getD heap.length [] = heap.getD a [] := by
      simp [List.getD]
    rw [hcopy, List.getElem?_set_self]
    simp

/-- Witness for C10 on a two-dict heap: the caller's dict at address 0 is
unchanged and the log entry lands at the fresh address 2. -/
theorem predict_no_input_mutation_witness :
    (buildLogEntry [sampleRec, []] 0 1).1[0]? = ([sampleRec, []] : List Rec)[0]? ∧
    (buildLogEntry [sampleRec, []] 0 1).2 ≠ 0 ∧
    (buildLogEntry [sampleRec, []] 0 1).1[(buildLogEntry [sampleRec, []] 0 1).2]? =
      some (dictSet (([sampleRec, []] : List Rec).getD 0 []) "prediction"
        ((1 : Nat) : Int)) :=
  predict_no_input_mutation [sampleRec, []] 0 1 (by decide)

/-- C4: with fewer than MIN_SAMPLES = 10 buffered records, both the
background run and the manual report endpoint produce no report and leave
the entire state — in particular the latest pointer — untouched, and both
surface the insufficient-data outcome, a value distinct from every error
outcome. -/
theorem insufficient_data_no_report (base : List Rec) (env : RunEnv)
    (st : ServerState) (h : st.production_data.length < 10) :
    generate_drift_report_background base env st = (.insufficient, st) ∧
      generate_report base env st =
        (.insufficientData st.production_data.length, st) := by
  constructor
  · simp [generate_drift_report_background, h]
  · simp [generate_report, h]

/-- Witness for C4 at the empty buffer: both paths skip, report
insufficient data and change nothing. -/
theorem insufficient_data_no_report_witness :
    generate_drift_report_background [] envOk emptyState =
        (RunResult.insufficient, emptyState) ∧
      generate_report [] envOk emptyState =
        (ReportResponse.insufficientData emptyState.production_data.length,
         emptyState) :=
  insufficient_data_no_report [] envOk emptyState (by decide)

/-- C8: the drift analysis step is deterministic — two runs of the
analyzer on identical (baseline, window) pairs produce identical report
content; the analyzer is a function of exactly these two inputs, so no
clock value or randomness enters the comparison. -/
theorem analyze_deterministic (b1 b2 : List Rec)
    (w1 w2 : List (List (Option Int)))
    (hb : b1 = b2) (hw : w1 = w2) :
    analyze b1 w1 = analyze b2 w2 := by
  rw [hb, hw]

/-- The selected four-feature window of the ten-record sample buffer. -/
def sampleWindow : List (List (Option Int)) :=
  sampleData.map (fun r => features_list.map (fun f => dictGet? r f))

/-- Witness for C8: two runs on the concrete sample pair coincide. -/
theorem analyze_deterministic_witness :
    analyze sampleData sampleWindow = analyze sampleData sampleWindow :=
  analyze_deterministic sampleData sampleData sampleWindow sampleWindow rfl rfl

/-- The feature window the analyzer would see for a given buffer: the
selected columns, or the empty window when column selection raises. -/
def windowOf (pd : List Rec) : List (List (Option Int)) :=
  match selectFeatures pd with
  | .ok w => w
  | .error _ => []

/-- C3: after a background run, the latest pointer equals the report
just produced by that run (the analyzer output on the reference frame and
the selected window) exactly when the run succeeded; after any failed or
skipped run — analyzer exception, storage failure at either save,
insufficient data — the latest pointer is unchanged from before the
run. -/
theorem latest_pointer_correct (base : List Rec) (env : RunEnv)
    (st : ServerState) :
    (generate_drift_report_background base env st).2.latestReport =
      if (generate_drift_report_background base env st).1 = RunResult.success
      then some (analyze base (windowOf st.production_data))
      else st.latestReport := by
  by_cases h : st.production_data.length < 10
  · simp [generate_drift_report_background, h]
  · cases hsel : selectFeatures st.production_data with
    | error e =>
      simp [generate_drift_report_background, analysisBody, h, hsel]
    | ok w =>
      cases ha : env.analyzeFails with
      | some e =>
        simp [generate_drift_report_background, analysisBody, h, hsel, ha]
      | none =>
        cases hs1 : env.saveTimestampedFails with
        | some e =>
          simp [generate_drift_report_background, analysisBody, h, hsel, ha, hs1]
        | none =>
          cases hs2 : env.saveLatestFails with
          | some e =>
            simp [generate_drift_report_background, analysisBody, h, hsel, ha,
              hs1, hs2]
          | none =>
            simp [generate_drift_report_background, analysisBody, windowOf, h,
              hsel, ha, hs1, hs2]

/-- Every timer tick yields exactly one run outcome, whatever the runs
did. -/
theorem runCycles_length (base : List Rec) :
    ∀ (envs : List RunEnv) (st : ServerState),
      (runCycles base envs st).1.length = envs.length := by
  intro envs
  induction envs with
  | nil => intro st; rfl
  | cons env rest ih =>
    intro st
    simp only [runCycles]
    simp [ih]

/-- C7: the scheduled run handles every failure locally: any exception
raised inside the try-block of a run with enough data is caught and
surfaced as a caught-error outcome (never propagated to the scheduler),
and a sequence of timer ticks always returns exactly one outcome per
tick, so a failed cycle never prevents later cycles from running. -/
theorem scheduled_run_never_raises (base : List Rec) (envs : List RunEnv)
    (st : ServerState) (env' : RunEnv) (st' : ServerState) (e : String)
    (hlen : ¬ st'.production_data.length < 10)
    (hraise : (analysisBody "drift_report_" base env' st').1 = .error e) :
    (runCycles base envs st).1.length = envs.length ∧
      (generate_drift_report_background base env' st').1 =
        RunResult.caughtError e := by
  refine ⟨runCycles_length base envs st, ?_⟩
  unfold generate_drift_report_background
  rw [if_neg hlen]
  cases hab : analysisBody "drift_report_" base env' st' with
  | mk r s2 =>
    rw [hab] at hraise
    cases r with
    | ok rep => simp at hraise
    | error e2 =>
      simp only at hraise
      rw [hraise]

/-- Witness for C7: two ticks on the empty state yield two outcomes, and
an analyzer exception on the ten-record state is caught as a
caught-error outcome. -/
theorem scheduled_run_never_raises_witness :
    (runCycles [] [envOk, envAnalyzeBoom] emptyState).1.length =
        ([envOk, envAnalyzeBoom] : List RunEnv).length ∧
      (generate_drift_report_background [] envAnalyzeBoom sampleState).1 =
        RunResult.caughtError "boom" :=
  scheduled_run_never_raises [] [envOk, envAnalyzeBoom] emptyState
    envAnalyzeBoom sampleState "boom" (by decide) (by decide)

/-- C1 counterexample: the source keeps no Idle/Running scheduler state
and `trigger_drift_detection_now` has no already-running rejection path:
at the concrete ten-record state below the handler starts an analysis run
(a new report file appears) and answers with the fixed success message,
and at the empty state it answers with the very same message — no request
is ever answered with an already-in-progress rejection, so the
at-most-one-concurrent-run policy of the claim is not enforced anywhere
in the code. -/
theorem trigger_never_rejected_counterexample :
    (trigger_drift_detection_now [] envOk sampleState).1.message =
        "Drift detection triggered successfully" ∧
      (trigger_drift_detection_now [] envOk sampleState).2.savedReports.length =
        sampleState.savedReports.length + 1 ∧
      (trigger_drift_detection_now [] envOk emptyState).1.message =
        "Drift detection triggered successfully" := by
  refine ⟨rfl, ?_, rfl⟩
  decide

/-- C1 amended: every run request through the manual trigger is accepted:
the handler unconditionally invokes the background run (the resulting
state is exactly the background run's state) and always returns the fixed
success message; the code keeps no Running state and never rejects or
queues a request, so nothing prevents two runs from overlapping. -/
theorem trigger_always_runs (base : List Rec) (env : RunEnv)
    (st : ServerState) :
    (trigger_drift_detection_now base env st).1.message =
        "Drift detection triggered successfully" ∧
      (trigger_drift_detection_now base env st).2 =
        (generate_drift_report_background base env st).2 :=
  ⟨rfl, rfl⟩

/-- C6 counterexample: at the empty buffer the background run is skipped
for insufficient data, yet `POST /monitor/trigger_now` still answers with
the fixed success message and no report is written — the endpoint reports
success for a skipped run, and its response carries no rejected or
insufficient-data variant a caller could distinguish. -/
theorem trigger_outcome_counterexample :
    (generate_drift_report_background [] envOk emptyState).1 =
        RunResult.insufficient ∧
      (trigger_drift_detection_now [] envOk emptyState).1.message =
        "Drift detection triggered successfully" ∧
      (trigger_drift_detection_now [] envOk emptyState).2.savedReports =
        emptyState.savedReports :=
  ⟨rfl, rfl, rfl⟩

/-- C6 amended: the trigger endpoint's response message is a constant —
identical across any two states, environments and baselines — so the
accepted / rejected / insufficient-data distinction of the claim does not
exist in this endpoint's response; only the separate
`GET /monitor/generate_report` endpoint distinguishes its outcomes. -/
theorem trigger_response_constant (base1 base2 : List Rec)
    (env1 env2 : RunEnv) (st1 st2 : ServerState) :
    (trigger_drift_detection_now base1 env1 st1).1.message =
      (trigger_drift_detection_now base2 env2 st2).1.message := rfl
